import Mathlib

/-
  Verification of the FactoryDashboard screen
  (src/project/src/pages/dashboard/FactoryDashboard.jsx).

  Numeric values (CO / CO2 concentrations, rating) are modelled over ℚ,
  a faithful exact model of the real arithmetic the spec states the code
  over.  `Math.random()` is modelled as an arbitrary rational r with
  0 ≤ r < 1, the documented range of the JS generator.
-/

namespace Emiscope

/-- Severity tier of a measurement.  The source returns the strings
`danger`, `warning` and `success`; the spec calls the third tier `ok`. -/
inductive Status where
  | danger
  | warning
  | success
deriving DecidableEq, Repr

/-- `coLevel > 25 ? 'danger' : coLevel > 20 ? 'warning' : 'success'`
(FactoryDashboard.jsx line 107). -/
def coStatus (coLevel : ℚ) : Status :=
  if coLevel > 25 then .danger else if coLevel > 20 then .warning else .success

/-- `co2Level > 500 ? 'danger' : co2Level > 450 ? 'warning' : 'success'`
(FactoryDashboard.jsx line 108). -/
def co2Status (co2Level : ℚ) : Status :=
  if co2Level > 500 then .danger else if co2Level > 450 then .warning else .success

/-- The CO updater from the simulation effect:
`newValue = prev + (Math.random() * 2 - 1); return Math.max(5, Math.min(40, newValue))`.
`r` stands for the `Math.random()` draw. -/
def coUpdate (r prev : ℚ) : ℚ :=
  max 5 (min 40 (prev + (r * 2 - 1)))

/-- The CO2 updater from the simulation effect:
`newValue = prev + (Math.random() * 10 - 5); return Math.max(350, Math.min(600, newValue))`. -/
def co2Update (r prev : ℚ) : ℚ :=
  max 350 (min 600 (prev + (r * 10 - 5)))

/-- The CO perturbation `Math.random() * 2 - 1`. -/
def uniformCO (r : ℚ) : ℚ := r * 2 - 1

/-- The CO2 perturbation `Math.random() * 10 - 5`. -/
def uniformCO2 (r : ℚ) : ℚ := r * 10 - 5

/-- Clamping as the spec words it: `clamp(v, lo, hi)` moves `v` to the
nearest point of `[lo, hi]`. -/
def clampSpec (v lo hi : ℚ) : ℚ :=
  if v < lo then lo else if hi < v then hi else v

/-- Trace of CO values after each tick, one entry per timer tick; the list
`rs` holds the `Math.random()` draw of each tick. -/
def coTrace (start : ℚ) : List ℚ → List ℚ
  | [] => []
  | r :: rs => coUpdate r start :: coTrace (coUpdate r start) rs

/-- Trace of CO2 values after each tick. -/
def co2Trace (start : ℚ) : List ℚ → List ℚ
  | [] => []
  | r :: rs => co2Update r start :: co2Trace (co2Update r start) rs

theorem coUpdate_mem (r prev : ℚ) : 5 ≤ coUpdate r prev ∧ coUpdate r prev ≤ 40 := by
  unfold coUpdate
  constructor
  · exact le_max_left _ _
  · exact max_le (by norm_num) (min_le_left _ _)

theorem co2Update_mem (r prev : ℚ) : 350 ≤ co2Update r prev ∧ co2Update r prev ≤ 600 := by
  unfold co2Update
  constructor
  · exact le_max_left _ _
  · exact max_le (by norm_num) (min_le_left _ _)

theorem coTrace_bounds (start : ℚ) (rs : List ℚ) :
    ∀ v ∈ coTrace start rs, 5 ≤ v ∧ v ≤ 40 := by
  induction rs generalizing start with
  | nil => intro v hv; simp [coTrace] at hv
  | cons r rs ih =>
      intro v hv
      simp only [coTrace, List.mem_cons] at hv
      rcases hv with h | h
      · subst h; exact coUpdate_mem r start
      · exact ih (coUpdate r start) v h

theorem co2Trace_bounds (start : ℚ) (rs : List ℚ) :
    ∀ v ∈ co2Trace start rs, 350 ≤ v ∧ v ≤ 600 := by
  induction rs generalizing start with
  | nil => intro v hv; simp [co2Trace] at hv
  | cons r rs ih =>
      intro v hv
      simp only [co2Trace, List.mem_cons] at hv
      rcases hv with h | h
      · subst h; exact co2Update_mem r start
      · exact ih (co2Update r start) v h

/-- Claim C1: for every starting value inside its declared range and every
finite sequence of timer ticks with arbitrary perturbation draws, every
CO value in the trace stays in [5, 40] and every CO2 value stays in
[350, 600]: the clamped update never leaves the declared bounds. -/
theorem C1_values_stay_in_bounds (coStart co2Start : ℚ) (rs : List ℚ)
    (hco : 5 ≤ coStart ∧ coStart ≤ 40)
    (hco2 : 350 ≤ co2Start ∧ co2Start ≤ 600) :
    (∀ v ∈ coTrace coStart rs, 5 ≤ v ∧ v ≤ 40) ∧
    (∀ v ∈ co2Trace co2Start rs, 350 ≤ v ∧ v ≤ 600) :=
  ⟨coTrace_bounds coStart rs, co2Trace_bounds co2Start rs⟩

theorem C1_values_stay_in_bounds_witness :
    (5 ≤ (15 : ℚ) ∧ (15 : ℚ) ≤ 40) ∧ (350 ≤ (450 : ℚ) ∧ (450 : ℚ) ≤ 600) ∧
    ((∀ v ∈ coTrace 15 [0, 1, 1/2], 5 ≤ v ∧ v ≤ 40) ∧
     (∀ v ∈ co2Trace 450 [0, 1, 1/2], 350 ≤ v ∧ v ≤ 600)) :=
  ⟨by norm_num, by norm_num,
   C1_values_stay_in_bounds 15 450 [0, 1, 1/2] (by norm_num) (by norm_num)⟩

/-- Claim C2: the status classifiers follow the stated thresholds: for CO,
danger above 25, warning on (20, 25], otherwise the `success` tier (the
spec's `ok`), with the boundary values 20 ↦ success and 25 ↦ warning; for
CO2, danger above 500, warning on (450, 500], otherwise success, with
450 ↦ success and 500 ↦ warning.  Totality and purity hold by the
functions being total Lean functions. -/
theorem C2_status_thresholds (v : ℚ) :
    (v > 25 → coStatus v = .danger) ∧
    (20 < v → v ≤ 25 → coStatus v = .warning) ∧
    (v ≤ 20 → coStatus v = .success) ∧
    (v > 500 → co2Status v = .danger) ∧
    (450 < v → v ≤ 500 → co2Status v = .warning) ∧
    (v ≤ 450 → co2Status v = .success) ∧
    coStatus 20 = .success ∧ coStatus 25 = .warning ∧
    co2Status 450 = .success ∧ co2Status 500 = .warning := by
  unfold coStatus co2Status
  refine ⟨?_, ?_, ?_, ?_, ?_, ?_, by norm_num, by norm_num, by norm_num, by norm_num⟩
  all_goals intros
  all_goals split_ifs <;> first | rfl | linarith

theorem C2_status_thresholds_witness :
    ((22 : ℚ) > 25 → coStatus 22 = .danger) ∧
    (20 < (22 : ℚ) → (22 : ℚ) ≤ 25 → coStatus 22 = .warning) ∧
    ((22 : ℚ) ≤ 20 → coStatus 22 = .success) ∧
    ((22 : ℚ) > 500 → co2Status 22 = .danger) ∧
    (450 < (22 : ℚ) → (22 : ℚ) ≤ 500 → co2Status 22 = .warning) ∧
    ((22 : ℚ) ≤ 450 → co2Status 22 = .success) ∧
    coStatus 20 = .success ∧ coStatus 25 = .warning ∧
    co2Status 450 = .success ∧ co2Status 500 = .warning :=
  C2_status_thresholds 22

theorem clampSpec_eq_max_min (v lo hi : ℚ) (h : lo ≤ hi) :
    clampSpec v lo hi = max lo (min hi v) := by
  unfold clampSpec
  split_ifs with h1 h2
  · rw [min_eq_right (le_of_lt (lt_of_lt_of_le h1 h)), max_eq_left (le_of_lt h1)]
  · rw [min_eq_left (le_of_lt h2), max_eq_right h]
  · rw [min_eq_right (not_lt.mp h2), max_eq_right (not_lt.mp h1)]

/-- Claim C3: on each tick, the next CO value is `clamp(prev + u, 5, 40)`
with `u = r*2 - 1 ∈ [-1, 1]`, and the next CO2 value is
`clamp(prev + u2, 350, 600)` with `u2 = r*10 - 5 ∈ [-5, 5]`; both
perturbations range over the full stated symmetric interval as `r` ranges
over `[0, 1)` (affinely, preserving uniformity).  Clamping is applied to
the already-perturbed value: at `prev = 40`, `r = 3/4` the code's result
differs from perturbing after clamping. -/
theorem C3_tick_formula (r prev prev2 : ℚ) (h0 : 0 ≤ r) (h1 : r < 1) :
    coUpdate r prev = clampSpec (prev + uniformCO r) 5 40 ∧
    -1 ≤ uniformCO r ∧ uniformCO r ≤ 1 ∧
    co2Update r prev2 = clampSpec (prev2 + uniformCO2 r) 350 600 ∧
    -5 ≤ uniformCO2 r ∧ uniformCO2 r ≤ 5 ∧
    (∀ u : ℚ, -1 ≤ u → u < 1 → ∃ s, 0 ≤ s ∧ s < 1 ∧ uniformCO s = u) ∧
    (∀ u : ℚ, -5 ≤ u → u < 5 → ∃ s, 0 ≤ s ∧ s < 1 ∧ uniformCO2 s = u) ∧
    coUpdate (3/4) 40 ≠ clampSpec 40 5 40 + uniformCO (3/4) := by
  refine ⟨?_, ?_, ?_, ?_, ?_, ?_, ?_, ?_, ?_⟩
  · rw [clampSpec_eq_max_min _ _ _ (by norm_num)]; rfl
  · unfold uniformCO; linarith
  · unfold uniformCO; linarith
  · rw [clampSpec_eq_max_min _ _ _ (by norm_num)]; rfl
  · unfold uniformCO2; linarith
  · unfold uniformCO2; linarith
  · intro u hu1 hu2
    exact ⟨(u + 1) / 2, by linarith, by linarith, by unfold uniformCO; ring⟩
  · intro u hu1 hu2
    exact ⟨(u + 5) / 10, by linarith, by linarith, by unfold uniformCO2; ring⟩
  · unfold coUpdate clampSpec uniformCO; norm_num

theorem C3_tick_formula_witness :
    (0 ≤ (1/2 : ℚ) ∧ (1/2 : ℚ) < 1) ∧
    (coUpdate (1/2) 15 = clampSpec (15 + uniformCO (1/2)) 5 40 ∧
     -1 ≤ uniformCO (1/2 : ℚ) ∧ uniformCO (1/2 : ℚ) ≤ 1 ∧
     co2Update (1/2) 450 = clampSpec (450 + uniformCO2 (1/2)) 350 600 ∧
     -5 ≤ uniformCO2 (1/2 : ℚ) ∧ uniformCO2 (1/2 : ℚ) ≤ 5 ∧
     (∀ u : ℚ, -1 ≤ u → u < 1 → ∃ s, 0 ≤ s ∧ s < 1 ∧ uniformCO s = u) ∧
     (∀ u : ℚ, -5 ≤ u → u < 5 → ∃ s, 0 ≤ s ∧ s < 1 ∧ uniformCO2 s = u) ∧
     coUpdate (3/4) 40 ≠ clampSpec 40 5 40 + uniformCO (3/4)) :=
  ⟨by norm_num, C3_tick_formula (1/2) 15 450 (by norm_num) (by norm_num)⟩

/-- Local state of the dashboard screen relevant to the simulation effect:
the two measurement values and whether the `setInterval` timer is still
alive (set up on mount, `clearInterval` run by the effect cleanup). -/
structure DashState where
  coLevel : ℚ
  co2Level : ℚ
  timerActive : Bool
deriving DecidableEq, Repr

/-- Initial state: `useState(15)`, `useState(450)`, timer armed on mount. -/
def initState : DashState := ⟨15, 450, true⟩

/-- Events the simulation lifecycle sees: a clock period elapsing (with the
two `Math.random()` draws the callback would make), or the screen being
deactivated (unmounted). -/
inductive Event where
  | tick (rCo rCo2 : ℚ)
  | unmount
deriving DecidableEq, Repr

/-- One event step.  A tick fires the interval callback only while the
timer is alive; unmount runs the effect cleanup `clearInterval(interval)`. -/
def stepEvent (s : DashState) : Event → DashState
  | .tick rCo rCo2 =>
      if s.timerActive then
        { s with coLevel := coUpdate rCo s.coLevel,
                 co2Level := co2Update rCo2 s.co2Level }
      else s
  | .unmount => { s with timerActive := false }

def runEvents (s : DashState) (es : List Event) : DashState :=
  List.foldl stepEvent s es

theorem runEvents_frozen (es : List Event) :
    ∀ s : DashState, s.timerActive = false →
      (runEvents s es).coLevel = s.coLevel ∧
      (runEvents s es).co2Level = s.co2Level := by
  induction es with
  | nil => intro s _; exact ⟨rfl, rfl⟩
  | cons e es ih =>
      intro s hs
      cases e with
      | tick rCo rCo2 =>
          have hstep : stepEvent s (.tick rCo rCo2) = s := by
            simp [stepEvent, hs]
          simpa [runEvents, List.foldl, hstep] using ih s hs
      | unmount =>
          have hstep : stepEvent s .unmount = { s with timerActive := false } := rfl
          have h2 := ih { s with timerActive := false } rfl
          simpa [runEvents, List.foldl, hstep] using h2

/-- Claim C4: once the screen is deactivated (the effect cleanup has run
`clearInterval`), no later elapsed clock period changes either measurement:
after `unmount`, every event sequence leaves `coLevel` and `co2Level`
exactly as they were at deactivation. -/
theorem C4_no_ticks_after_unmount (s : DashState) (es : List Event) :
    (runEvents (stepEvent s .unmount) es).coLevel = s.coLevel ∧
    (runEvents (stepEvent s .unmount) es).co2Level = s.co2Level := by
  have h := runEvents_frozen es { s with timerActive := false } rfl
  exact h

/-- The factory profile record `{name, location, industry, rating}` read
from the `factories` collection. -/
structure FactoryDoc where
  name : String
  location : String
  industry : String
  rating : ℚ
deriving DecidableEq, Repr

/-- Outcome of the `getDoc` store read: the document exists, the read
succeeds but `factoryDoc.exists()` is false, or `getDoc` throws. -/
inductive FetchOutcome where
  | found (d : FactoryDoc)
  | notFound
  | storeError
deriving DecidableEq, Repr

/-- The component state the fetch effect touches: `factory` (initially
`null`) and `loading` (initially `true`). -/
structure FetchState where
  factory : Option FactoryDoc
  loading : Bool
deriving DecidableEq, Repr

/-- Initial fetch-related state: `useState(null)`, `useState(true)`. -/
def initFetchState : FetchState := ⟨none, true⟩

/-- `fetchFactoryData` from the source: bail out if `!currentUser`;
otherwise `getDoc`, on exists apply the data, on not-exists or on a thrown
error log a `console.error` message, and in `finally` clear `loading`.
Returns the updated state, the emitted console messages, and the number of
store reads issued. -/
def fetchFactoryData (currentUser : Option String) (outcome : FetchOutcome)
    (s : FetchState) : FetchState × List String × Nat :=
  match currentUser with
  | none => (s, [], 0)
  | some _ =>
    match outcome with
    | .found d => ({ factory := some d, loading := false }, [], 1)
    | .notFound =>
        ({ s with loading := false },
         ["No factory document found for this user"], 1)
    | .storeError =>
        ({ s with loading := false },
         ["Error fetching factory data:"], 1)

/-- JS `opt?.field || fallback` on a string field: `none` (missing record)
and the empty string (falsy) both yield the fallback. -/
def jsStringOr (v : Option String) (fallback : String) : String :=
  match v with
  | none => fallback
  | some str => if str = "" then fallback else str

/-- JS `opt?.field || fallback` on a numeric field: `none` and `0` (falsy)
both yield the fallback. -/
def jsNumOr (v : Option ℚ) (fallback : ℚ) : ℚ :=
  match v with
  | none => fallback
  | some q => if q = 0 then fallback else q

def replaceFirstChar (sep repl : Char) : List Char → List Char
  | [] => []
  | c :: cs => if c = sep then repl :: cs else c :: replaceFirstChar sep repl cs

/-- JS `str.replace('_', ' ')`: replaces only the first underscore. -/
def jsReplaceUnderscore (str : String) : String :=
  ⟨replaceFirstChar (Char.ofNat 95) (Char.ofNat 32) str.data⟩

/-- `{factory?.name || 'Your Factory'} Dashboard` (header `h1`). -/
def nameShown (factory : Option FactoryDoc) : String :=
  jsStringOr (factory.map (·.name)) "Your Factory"

/-- `factory?.location || 'Location'`. -/
def locationShown (factory : Option FactoryDoc) : String :=
  jsStringOr (factory.map (·.location)) "Location"

/-- `factory?.industry?.replace('_', ' ') || 'Industry'`. -/
def industryShown (factory : Option FactoryDoc) : String :=
  jsStringOr (factory.map (fun d => jsReplaceUnderscore d.industry)) "Industry"

/-- `factory?.rating || 0` passed to `RatingDisplay`. -/
def ratingShown (factory : Option FactoryDoc) : ℚ :=
  jsNumOr (factory.map (·.rating)) 0

/-- The header title string. -/
def titleShown (factory : Option FactoryDoc) : String :=
  nameShown factory ++ " Dashboard"

/-- The header subtitle string.  The separator literal on source line 124
is the three-character sequence U+00E2 U+20AC U+00A2 ("â€¢", a mojibake of
the bullet U+2022), so that is what the program renders between location
and industry. -/
def subtitleShown (factory : Option FactoryDoc) : String :=
  locationShown factory ++ " â€¢ " ++ industryShown factory

/-- What the component renders: the loading spinner, or the dashboard with
its header contents. -/
inductive Rendered where
  | spinner
  | dashboard (title subtitle : String) (rating : ℚ)
deriving DecidableEq, Repr

/-- The component body: `if (loading) return spinner;` else the dashboard. -/
def renderScreen (s : FetchState) : Rendered :=
  if s.loading then .spinner
  else .dashboard (titleShown s.factory) (subtitleShown s.factory) (ratingShown s.factory)

/-- The stored record of the spec's end-to-end scenario for identity U1. -/
def acme : FactoryDoc := ⟨"Acme Steel", "Ohio", "metal_production", 4⟩

/-- Claim C5: with a user present, a found record is surfaced exactly to
the display; a missing record logs its console message and the dashboard
renders with the placeholder values; a store error logs a distinct console
message and renders the same placeholders; in all three outcomes the
screen renders (never stuck on the spinner). -/
theorem C5_fetch_outcomes (uid : String) (d : FactoryDoc) :
    (fetchFactoryData (some uid) (.found d) initFetchState).1.factory = some d ∧
    renderScreen (fetchFactoryData (some uid) (.found d) initFetchState).1 =
      .dashboard (titleShown (some d)) (subtitleShown (some d)) (ratingShown (some d)) ∧
    renderScreen (fetchFactoryData (some uid) (.found d) initFetchState).1 ≠ .spinner ∧
    (fetchFactoryData (some uid) .notFound initFetchState).2.1 =
      ["No factory document found for this user"] ∧
    renderScreen (fetchFactoryData (some uid) .notFound initFetchState).1 =
      .dashboard "Your Factory Dashboard" "Location â€¢ Industry" 0 ∧
    (fetchFactoryData (some uid) .storeError initFetchState).2.1 =
      ["Error fetching factory data:"] ∧
    renderScreen (fetchFactoryData (some uid) .storeError initFetchState).1 =
      .dashboard "Your Factory Dashboard" "Location â€¢ Industry" 0 ∧
    (fetchFactoryData (some uid) .notFound initFetchState).2.1 ≠
      (fetchFactoryData (some uid) .storeError initFetchState).2.1 := by
  refine ⟨rfl, rfl, ?_, rfl, ?_, rfl, ?_, ?_⟩
  · simp [fetchFactoryData, renderScreen]
  · show renderScreen ⟨none, false⟩ =
      .dashboard "Your Factory Dashboard" "Location â€¢ Industry" 0
    decide
  · show renderScreen ⟨none, false⟩ =
      .dashboard "Your Factory Dashboard" "Location â€¢ Industry" 0
    decide
  · show ["No factory document found for this user"] ≠
      (["Error fetching factory data:"] : List String)
    decide

/-- A screen instance carrying its mount flag, and the completion of an
in-flight fetch as the source codes it: the result is applied to the state
with no check that the screen is still mounted. -/
structure ScreenInst where
  mounted : Bool
  fs : FetchState
deriving DecidableEq, Repr

def lateCompletion (uid : String) (outcome : FetchOutcome) (sc : ScreenInst) :
    ScreenInst × List String × Nat :=
  ({ sc with fs := (fetchFactoryData (some uid) outcome sc.fs).1 },
   (fetchFactoryData (some uid) outcome sc.fs).2)

/-- Claim C6 fails on the code: a fetch result arriving after the screen
is deactivated (mounted = false) is still applied — the source has no
still-mounted check, so the late `found` result overwrites the state
instead of being discarded. -/
theorem C6_late_result_applied :
    (lateCompletion "U1" (.found acme) ⟨false, initFetchState⟩).1.mounted = false ∧
    (lateCompletion "U1" (.found acme) ⟨false, initFetchState⟩).1.fs.factory = some acme ∧
    (lateCompletion "U1" (.found acme) ⟨false, initFetchState⟩).1.fs ≠ initFetchState := by
  decide

def countChanges (d : Option String) : List (Option String) → Nat
  | [] => 0
  | d2 :: rest => (if d2 = d then 0 else 1) + countChanges d2 rest

/-- `useEffect(..., [currentUser])`: the effect body fires on mount and
again exactly at each render where the dep differs from the previous
render's dep.  The argument lists the dep value at each render. -/
def effectFires : List (Option String) → Nat
  | [] => 0
  | d :: rest => 1 + countChanges d rest

theorem countChanges_const (uid : String) (n : Nat) :
    countChanges (some uid) (List.replicate n (some uid)) = 0 := by
  induction n with
  | zero => rfl
  | succ n ih => simp [List.replicate, countChanges, ih]

/-- Claim C7: over a mount with any number of renders all seeing the same
identity, the fetch effect fires exactly once; each invocation issues
exactly one store read regardless of outcome and of prior state, so a
failed or empty fetch is never retried. -/
theorem C7_one_fetch_per_mount (uid : String) (n : Nat) :
    effectFires (List.replicate (n + 1) (some uid)) = 1 ∧
    ∀ (o : FetchOutcome) (s : FetchState),
      (fetchFactoryData (some uid) o s).2.2 = 1 := by
  constructor
  · simp [List.replicate, effectFires, countChanges_const]
  · intro o s
    cases o <;> rfl

/-- Claim C8 fails on the code as stated: the subtitle separator literal
on source line 124 is the three-character mojibake "â€¢"
(U+00E2 U+20AC U+00A2), not the bullet "•" (U+2022), so the Acme Steel
record does not display the claimed subtitle "Ohio • metal production"
and the no-record subtitle is not "Location • Industry". -/
theorem C8_bullet_counterexample :
    subtitleShown (some acme) ≠ "Ohio • metal production" ∧
    subtitleShown none ≠ "Location • Industry" := by
  decide

/-- Claim C8 amended: the Acme Steel record displays as title "Acme Steel
Dashboard", subtitle "Ohio â€¢ metal production" (first
underscore replaced by a space; the separator is the source's literal
mojibake "â€¢") and rating 4; with no stored record the
display is "Your Factory Dashboard", "Location â€¢ Industry"
and rating 0. -/
theorem C8_concrete_display :
    titleShown (some acme) = "Acme Steel Dashboard" ∧
    subtitleShown (some acme) = "Ohio â€¢ metal production" ∧
    ratingShown (some acme) = 4 ∧
    titleShown none = "Your Factory Dashboard" ∧
    subtitleShown none = "Location â€¢ Industry" ∧
    ratingShown none = 0 := by
  decide

/-- Claim C9: with no authenticated user the fetch bails out before any
store read (zero reads) and before clearing `loading`, the state is
unchanged, and the component keeps rendering only the spinner. -/
theorem C9_no_user_spinner (o : FetchOutcome) (s : FetchState)
    (hs : s.loading = true) :
    fetchFactoryData none o s = (s, [], 0) ∧
    renderScreen (fetchFactoryData none o s).1 = .spinner := by
  refine ⟨rfl, ?_⟩
  simp [fetchFactoryData, renderScreen, hs]

theorem C9_no_user_spinner_witness :
    initFetchState.loading = true ∧
    (fetchFactoryData none .notFound initFetchState = (initFetchState, [], 0) ∧
     renderScreen (fetchFactoryData none .notFound initFetchState).1 = .spinner) :=
  ⟨rfl, C9_no_user_spinner .notFound initFetchState rfl⟩

/-- Claim C10: fallbacks are per field by JS falsiness, not by record
absence: in a present record an empty name, location or industry, or a
zero rating, displays as its placeholder exactly as in the no-record
case. -/
theorem C10_falsy_fields_placeholder (d : FactoryDoc) :
    (d.name = "" → nameShown (some d) = nameShown none) ∧
    (d.location = "" → locationShown (some d) = locationShown none) ∧
    (d.industry = "" → industryShown (some d) = industryShown none) ∧
    (d.rating = 0 → ratingShown (some d) = ratingShown none) ∧
    nameShown none = "Your Factory" ∧
    locationShown none = "Location" ∧
    industryShown none = "Industry" ∧
    ratingShown none = 0 := by
  obtain ⟨nm, loc, ind, rat⟩ := d
  refine ⟨?_, ?_, ?_, ?_, rfl, rfl, rfl, rfl⟩ <;> intro h <;>
    simp_all [nameShown, locationShown, industryShown, ratingShown,
      jsStringOr, jsNumOr, jsReplaceUnderscore, replaceFirstChar]

theorem C10_falsy_fields_placeholder_witness :
    ((FactoryDoc.mk "" "" "" 0).name = "" ∧
     (FactoryDoc.mk "" "" "" 0).location = "" ∧
     (FactoryDoc.mk "" "" "" 0).industry = "" ∧
     (FactoryDoc.mk "" "" "" 0).rating = 0) ∧
    (nameShown (some (FactoryDoc.mk "" "" "" 0)) = nameShown none ∧
     locationShown (some (FactoryDoc.mk "" "" "" 0)) = locationShown none ∧
     industryShown (some (FactoryDoc.mk "" "" "" 0)) = industryShown none ∧
     ratingShown (some (FactoryDoc.mk "" "" "" 0)) = ratingShown none) :=
  ⟨⟨rfl, rfl, rfl, by decide⟩,
   ⟨(C10_falsy_fields_placeholder (FactoryDoc.mk "" "" "" 0)).1 rfl,
    (C10_falsy_fields_placeholder (FactoryDoc.mk "" "" "" 0)).2.1 rfl,
    (C10_falsy_fields_placeholder (FactoryDoc.mk "" "" "" 0)).2.2.1 rfl,
    (C10_falsy_fields_placeholder (FactoryDoc.mk "" "" "" 0)).2.2.2.1 (by decide)⟩⟩

end Emiscope
